import Mathlib

/-!
Verification of the query-routing and dialogue-state engine of the Ernie_MCP
repository (files Weather_zh.py, Weather.py, Agent.py, Ernie_Client.py).
The definitions below are a shallow embedding of the Python source; external
effects (the completion endpoint, the MCP tool transport) are modelled as
explicit oracle parameters, and Python exceptions as Except values.
-/

namespace ErnieMCP

/-- One dialogue turn, mirroring the dict
`{"role": ..., "content": ..., "timestamp": ...}` built by
`DialogueMemory.add_message` (Weather_zh.py line 36). -/
structure Message where
  role : String
  content : String
  timestamp : String
deriving Repr, DecidableEq

/-- `DialogueMemory.max_history_length` (Weather_zh.py line 32). -/
def max_history_length : Nat := 5

/-- `DialogueMemory.add_message` (Weather_zh.py lines 34-41): append the new
message, then if the length exceeds `max_history_length` keep only the last
`max_history_length` entries (`self.history[-self.max_history_length:]`). -/
def add_message (history : List Message) (msg : Message) : List Message :=
  let h := history ++ [msg]
  if max_history_length < h.length then h.drop (h.length - max_history_length) else h

/-- Default used only to totalize list indexing; every index that
`get_recent_context` dereferences is guarded to be in range. -/
def dfltMsg : Message := ⟨"", "", ""⟩

/-- The descending index sequence `range(len(h)-1, max(-1, len(h)-6), -2)` of
`DialogueMemory.get_recent_context` (Weather_zh.py line 50): the candidates
n-1, n-3, n-5 are kept while they exceed the stop bound (the candidate n-7 is
never above the bound, so three candidates suffice). -/
def contextIndices (n : Nat) : List Int :=
  let stop : Int := max (-1) ((n : Int) - 6)
  [(n : Int) - 1, (n : Int) - 3, (n : Int) - 5].filter (fun i => stop < i)

/-- `DialogueMemory.get_recent_context` (Weather_zh.py lines 43-56): for each
index i of `contextIndices`, append a `用户:` line when history[i] has role
user, then an `助手:` line when history[i-1] exists and has role assistant;
finally reverse the collected lines and join them with blank lines, returning
the empty string when nothing was collected or the memory is empty. -/
def get_recent_context (history : List Message) : String :=
  if history.isEmpty then "" else
  let n := history.length
  let step := fun (acc : List String) (i : Int) =>
    let acc1 := if 0 ≤ i ∧ (history.getD i.toNat dfltMsg).role = "user"
      then acc ++ ["用户: " ++ (history.getD i.toNat dfltMsg).content] else acc
    if 0 ≤ i - 1 ∧ (history.getD (i - 1).toNat dfltMsg).role = "assistant"
      then acc1 ++ ["助手: " ++ (history.getD (i - 1).toNat dfltMsg).content] else acc1
  let msgs := (contextIndices n).foldl step []
  if msgs.isEmpty then "" else String.intercalate "\n\n" msgs.reverse

/-- Decides whether `pat` occurs as a contiguous sublist of `cs`, scanning
candidate start positions left to right; this embeds the Python substring
operator `pat in s`. -/
def listContains (pat : List Char) : List Char → Bool
  | [] => pat.isEmpty
  | c :: rest => pat.isPrefixOf (c :: rest) || listContains pat rest

/-- Python `pat in s` on strings. -/
def strContains (s pat : String) : Bool := listContains pat.data s.data

/-- Python `s.startswith(pre)`. -/
def strStartsWith (s pre : String) : Bool := pre.data.isPrefixOf s.data

/-- Python `str.capitalize()`: first character uppercased, the rest
lowercased (ASCII case mapping suffices for pinyin output). -/
def pyCapitalize (s : String) : String :=
  match s.data with
  | [] => ""
  | c :: rest => String.mk (c.toUpper :: rest.map Char.toLower)

/-- Python `''.join(strs)`. -/
def concatAll : List String → String
  | [] => ""
  | s :: rest => s ++ concatAll rest

/-- Python dict lookup `m[k]` / `k in m` over an insertion-ordered mapping,
embedded as an association list. -/
def lookupMap (m : List (String × String)) (k : String) : Option String :=
  (m.find? (fun p => p.1 == k)).map (fun p => p.2)

/-- Modelled from the spec: the module `city.py` that defines `CITY_MAP`
(imported by Weather_zh.py, Weather.py and Agent.py via `from city import *`)
is not under src/. The spec (§3 Gazetteer Entry, §4.1, §8) fixes it as a
static native-to-English mapping with entries such as 北京 → Beijing; the
entries here follow the inline `CITY_MAP` of Ernie_Client.py lines 17-23. -/
def CITY_MAP : List (String × String) :=
  [("北京", "Beijing"), ("上海", "Shanghai"), ("广州", "Guangzhou"), ("深圳", "Shenzhen")]

/-- `translate_city` (Weather_zh.py lines 62-76, identical in Agent.py lines
21-38): exact `CITY_MAP` lookup, then the first entry whose native name is a
prefix of, or contained in, the input, then pinyin transliteration
capitalized when the pypinyin import succeeds (`lazyPinyin = some f` models an
importable pypinyin whose `lazy_pinyin` maps each character to a syllable),
else the input unchanged. -/
def translate_city (cityMap : List (String × String))
    (lazyPinyin : Option (Char → String)) (city : String) : String :=
  match lookupMap cityMap city with
  | some en => en
  | none =>
    match cityMap.find? (fun p => strStartsWith city p.1 || strContains city p.1) with
    | some p => p.2
    | none =>
      match lazyPinyin with
      | some f => pyCapitalize (concatAll (city.data.map f))
      | none => city

/-- `translate_city` of Ernie_Client.py lines 25-27: a plain
`CITY_MAP.get(city, city)` over the inline map, with no prefix/substring step
and no transliteration. -/
def ernie_translate_city (city : String) : String :=
  (lookupMap CITY_MAP city).getD city

/-- Python `s.replace(pat, rep)` on the character level: replace
non-overlapping occurrences left to right. The fuel argument (instantiated
with the list length) only forces structural termination; each step consumes
at least one character, so the fuel never runs out on a non-empty pattern. -/
def replaceAux (pat rep : List Char) : Nat → List Char → List Char
  | _, [] => []
  | 0, l => l
  | fuel + 1, c :: rest =>
    if pat.isPrefixOf (c :: rest) then
      rep ++ replaceAux pat rep fuel ((c :: rest).drop pat.length)
    else
      c :: replaceAux pat rep fuel rest

/-- Python `s.replace(pat, rep)`. -/
def pyReplace (s pat rep : String) : String :=
  String.mk (replaceAux pat.data rep.data s.data.length s.data)

/-- Python `s.strip()`: drop whitespace from both ends. -/
def pyStrip (s : String) : String :=
  String.mk (((s.data.dropWhile Char.isWhitespace).reverse.dropWhile
    Char.isWhitespace).reverse)

/-- Python `s.lower()` (ASCII case mapping, which is all the adverse-weather
keyword matching needs). -/
def pyLower (s : String) : String := String.mk (s.data.map Char.toLower)

/-- The weather keyword list of `is_weather_query` (Weather_zh.py line 80). -/
def weather_keywords : List String :=
  ["天气", "温度", "气温", "湿度", "下雨", "下雪", "晴天", "雨天", "多云", "风力"]

/-- `is_weather_query` (Weather_zh.py lines 78-81): true iff the query
contains one of the fixed weather keywords. -/
def is_weather_query (query : String) : Bool :=
  weather_keywords.any (fun k => strContains query k)

/-- The filler-word removal and strip opening `extract_city`
(Weather_zh.py line 129):
`query.replace("你", "").replace("请问", "").replace("知道", "").strip()`. -/
def cleanQuery (q : String) : String :=
  pyStrip (pyReplace (pyReplace (pyReplace q "你" "") "请问" "") "知道" "")

/-- The three literal forms that can follow the lazy capture in the tier-1
regex `(.+?)(?:现在|今天|的)天气` of `extract_city` (Weather_zh.py
line 132). -/
def tier1Markers : List (List Char) :=
  ["现在天气".data, "今天天气".data, "的天气".data]

/-- Lazy-capture extension at a fixed start position for the tier-1 regex:
grow the capture one character at a time (`.` refuses a newline), stopping at
the shortest capture that is followed by a marker; `acc` holds the capture
consumed so far, reversed. -/
def tier1Grow : List Char → List Char → Option (List Char)
  | _, [] => none
  | acc, c :: rest =>
    if c = '\n' then none
    else if tier1Markers.any (fun m => m.isPrefixOf rest) then some (c :: acc).reverse
    else tier1Grow (c :: acc) rest

/-- `re.search` of the tier-1 pattern: try each start position left to
right. -/
def tier1Search : List Char → Option (List Char)
  | [] => none
  | c :: rest =>
    match tier1Grow [] (c :: rest) with
    | some cap => some cap
    | none => tier1Search rest

/-- `re.search` of an alternation `((?:a1|a2|...)[class]?)`: scan start
positions left to right; at each position try the alternatives in listed
order, then greedily absorb one optional character from the class into the
capture. This embeds the tier-2 and tier-3 regexes of `extract_city`
(Weather_zh.py lines 137 and 142). -/
def altAt (alts : List String) (suffixClass : List Char) (cs : List Char) :
    Option (List Char) :=
  match alts.find? (fun a => a.data.isPrefixOf cs) with
  | some a =>
    match cs.drop a.data.length with
    | d :: _ => if suffixClass.contains d then some (a.data ++ [d]) else some a.data
    | [] => some a.data
  | none => none

def altSearch (alts : List String) (suffixClass : List Char) : List Char → Option (List Char)
  | [] => none
  | c :: rest =>
    match altAt alts suffixClass (c :: rest) with
    | some cap => some cap
    | none => altSearch alts suffixClass rest

def cityList : List String :=
  [
    "北京", "上海", "广州", "深圳", "天津", "重庆", "成都", "杭州", "武汉", "西安",
    "苏州", "郑州", "南京", "青岛", "沈阳", "大连", "厦门", "福州", "长沙", "哈尔滨",
    "济南", "长春", "石家庄", "合肥", "太原", "南昌", "南宁", "昆明", "贵阳", "海口",
    "乌鲁木齐", "呼和浩特", "银川", "西宁", "兰州", "拉萨", "宁波", "温州", "无锡", "常州",
    "南通", "徐州", "扬州", "盐城", "泰州", "镇江", "淮安", "连云港", "宿迁", "嘉兴",
    "湖州", "绍兴", "金华", "衢州", "舟山", "台州", "丽水", "芜湖", "马鞍山", "安庆",
    "滁州", "阜阳", "宿州", "六安", "亳州", "池州", "宣城", "漳州", "南平", "三明",
    "龙岩", "宁德", "景德镇", "萍乡", "九江", "新余", "鹰潭", "赣州", "吉安", "宜春",
    "抚州", "上饶", "淄博", "枣庄", "东营", "烟台", "潍坊", "济宁", "泰安", "威海",
    "日照", "临沂", "德州", "聊城", "滨州", "菏泽", "开封", "洛阳", "平顶山", "安阳",
    "鹤壁", "新乡", "焦作", "濮阳", "许昌", "漯河", "三门峡", "南阳", "商丘", "信阳",
    "周口", "驻马店", "黄石", "十堰", "宜昌", "襄阳", "鄂州", "荆门", "孝感", "荆州",
    "黄冈", "咸宁", "随州", "恩施", "株洲", "湘潭", "衡阳", "邵阳", "岳阳", "常德",
    "张家界", "益阳", "郴州", "永州", "怀化", "娄底", "湘西", "韶关", "珠海", "汕头",
    "佛山", "江门", "湛江", "茂名", "肇庆", "惠州", "梅州", "汕尾", "河源", "阳江",
    "清远", "东莞", "中山", "潮州", "揭阳", "云浮", "柳州", "桂林", "梧州", "北海",
    "防城港", "钦州", "贵港", "玉林", "百色", "贺州", "河池", "来宾", "崇左", "儋州",
    "自贡", "攀枝花", "泸州", "德阳", "绵阳", "广元", "遂宁", "内江", "乐山", "南充",
    "眉山", "宜宾", "广安", "达州", "雅安", "巴中", "资阳", "阿坝", "甘孜", "凉山",
    "六盘水", "遵义", "安顺", "毕节", "铜仁", "黔东南", "黔南", "黔西南", "曲靖", "玉溪",
    "保山", "昭通", "丽江", "普洱", "临沧", "楚雄", "红河", "文山", "西双版纳", "大理",
    "德宏", "怒江", "迪庆", "昌都", "林芝", "山南", "那曲", "阿里", "铜川", "宝鸡",
    "咸阳", "渭南", "延安", "汉中", "榆林", "安康", "商洛", "嘉峪关", "金昌", "白银",
    "天水", "武威", "张掖", "平凉", "酒泉", "庆阳", "定西", "陇南", "临夏", "甘南",
    "海东", "海北", "黄南", "海南", "果洛", "玉树", "海西", "石嘴山", "吴忠", "固原",
    "中卫", "克拉玛依", "吐鲁番", "哈密", "昌吉", "博尔塔拉", "巴音郭楞", "阿克苏", "克孜勒苏", "喀什",
    "和田", "伊犁", "塔城", "阿勒泰", "石河子", "阿拉尔", "图木舒克", "五家渠", "北屯", "铁门关",
    "双河", "可克达拉", "昆玉", "胡杨河", "新星"
  ]

def provinceList : List String :=
  [
    "北京", "天津", "上海", "重庆", "河北", "山西", "辽宁", "吉林", "黑龙江", "江苏",
    "浙江", "安徽", "福建", "江西", "山东", "河南", "湖北", "湖南", "广东", "海南",
    "四川", "贵州", "云南", "陕西", "甘肃", "青海", "台湾", "内蒙古", "广西", "西藏",
    "宁夏", "新疆", "香港", "澳门"
  ]

/-- The optional-suffix character classes `[市省]?` (tier 2) and
`[省市自治区]?` (tier 3), and the colon class `[:：]` of the decision
label pattern. -/
def citySuffixClass : List Char := ['\u5e02', '\u7701']

def provinceSuffixClass : List Char := ['\u7701', '\u5e02', '\u81ea', '\u6cbb', '\u533a']

def colonClass : List Char := [':', '\uff1a']

/-- `extract_city` (Weather_zh.py lines 126-146): strip filler words, then
the three-tier regex cascade; each captured group is stripped before being
returned, and `none` models Python's `None`. -/
def extract_city (query : String) : Option String :=
  let q := cleanQuery query
  match tier1Search q.data with
  | some cap => some (pyStrip (String.mk cap))
  | none =>
    match altSearch cityList citySuffixClass q.data with
    | some cap => some (pyStrip (String.mk cap))
    | none =>
      match altSearch provinceList provinceSuffixClass q.data with
      | some cap => some (pyStrip (String.mk cap))
      | none => none

/-- Matching of `城市[:：]` followed by `\s*` then the greedy capture `(\S+)`
at a fixed position of the decision text (Weather_zh.py line 200); the
capture must be non-empty or the position does not match. -/
def cityLabelAt (cs : List Char) : Option (List Char) :=
  if ("城市".data).isPrefixOf cs then
    match cs.drop 2 with
    | colon :: rest =>
      if colonClass.contains colon then
        let cap := (rest.dropWhile Char.isWhitespace).takeWhile (fun c => !c.isWhitespace)
        if cap.isEmpty then none else some cap
      else none
    | [] => none
  else none

/-- `re.search` of `城市[:：]\s*(\S+)` over the model's decision text. -/
def cityLabelSearch : List Char → Option (List Char)
  | [] => none
  | c :: rest =>
    match cityLabelAt (c :: rest) with
    | some cap => some cap
    | none => cityLabelSearch rest

/-- `should_call_tool` (Weather_zh.py lines 148-210). The classification
completion call is an oracle: `.error` models any exception it raises, and
`.ok s` a reply whose content is `s` (the prompt built from the dialogue
context only feeds that oracle and cannot influence the returned pair). -/
def should_call_tool (modelDecision : Except Unit String) (query : String) :
    Bool × Option String :=
  if is_weather_query query then
    let city := extract_city query
    (city.isSome, city)
  else
    match modelDecision with
    | .error _ => (false, none)
    | .ok raw =>
      let decision := pyStrip raw
      if strContains decision "否" || strContains decision "不需要" ||
          strContains decision "None" then
        (false, none)
      else
        match cityLabelSearch decision.data with
        | some cap => (true, some (String.mk cap))
        | none =>
          let city := extract_city query
          (city.isSome, city)

/-- Control-flow fact of `should_call_tool`: the code of the model-assisted
fallback (Weather_zh.py lines 158-210) runs iff the keyword screen on line
154 failed, because the keyword branch ends in an unconditional `return`. -/
def reaches_model_fallback (query : String) : Bool := !(is_weather_query query)

/-- The `main` sub-dict of the weather JSON payload (keys `temp` and
`humidity`); numeric fields are embedded as integers, which is all the
threshold comparisons of the composer inspect. -/
structure MainData where
  temp : Int
  humidity : Int
deriving Repr, DecidableEq

/-- One entry of the `weather` array of the payload (key `description`). -/
structure CondData where
  description : String
deriving Repr, DecidableEq

/-- The `wind` sub-dict of the payload (key `speed`). -/
structure WindData where
  speed : Int
deriving Repr, DecidableEq

/-- The optional `air_quality` sub-dict; its `aqi` key is read with
`.get("aqi", 0)`, hence optional as well. -/
structure AirData where
  aqi : Option Int
deriving Repr, DecidableEq

/-- A parsed structured weather payload. Each top-level key may be absent
(`none`, or `[]` for the array), in which case Python subscripting raises
KeyError or IndexError at the point of use. -/
structure StructData where
  name : Option String
  main : Option MainData
  weather : List CondData
  wind : Option WindData
  air_quality : Option AirData
deriving Repr, DecidableEq

/-- The normalized value `call_weather_tool` hands downstream: either the
parsed JSON dict or the `{"formatted_text": raw}` wrapper built for
non-JSON replies. -/
inductive WeatherData
  | formatted (text : String)
  | structured (d : StructData)
deriving Repr, DecidableEq

/-- Outcome of `session.call_tool("query_weather", ...)` followed by
`json.loads`, as observed by `call_weather_tool`: `raises` models any
exception of the transport call, `empty` a missing or empty `result.content`,
`errorObj` a parsed reply that is empty or carries an `"error"` key,
`invalidJson` a reply that raises JSONDecodeError, and `jsonData` a
successfully parsed non-error dict. -/
inductive ToolTransport
  | raises
  | empty
  | errorObj (msg : String)
  | invalidJson (raw : String)
  | jsonData (d : StructData)
deriving Repr, DecidableEq

/-- `call_weather_tool` (Weather_zh.py lines 212-242): returns `none`
(Python None) when the tool is unavailable, the transport raises or returns
empty, or the parsed JSON is empty or carries an error marker; otherwise the
parsed dict, or the formatted-text wrapper for non-JSON replies. The city
argument is first passed through `translate_city`, which only shapes the
outbound request consumed by the transport oracle, not the reply. -/
def call_weather_tool (toolsAvailable : Bool) (transport : ToolTransport) :
    Option WeatherData :=
  if !toolsAvailable then none
  else
    match transport with
    | .raises => none
    | .empty => none
    | .errorObj _ => none
    | .invalidJson raw => some (.formatted raw)
    | .jsonData d => some (.structured d)

/-- Python subscripting `d[k]` on an optional field: KeyError (modelled
`.error ()`) when the key is absent. -/
def getField {a : Type} : Option a → Except Unit a
  | some x => .ok x
  | none => .error ()

/-- Python `l[0]`: IndexError when the list is empty. -/
def headField {a : Type} : List a → Except Unit a
  | [] => .error ()
  | x :: _ => .ok x

/-- The adverse-condition keyword list of `get_weather_suitability`
(Weather_zh.py line 276). -/
def bad_weather_keywords : List String :=
  ["rain", "thunderstorm", "drizzle", "snow", "shower"]

/-- The body of `get_weather_suitability` (Weather_zh.py lines 246-311)
inside its try/except: read the required fields (raising on a missing one),
run the if/elif threshold cascade exactly as written, and assemble the
report followed by the verdict sentence. -/
def suitability_body (d : StructData) : Except Unit String := do
  let city := d.name.getD "该地区"
  let m ← getField d.main
  let temp := m.temp
  let w ← headField d.weather
  let weather_desc := w.description
  let humidity := m.humidity
  let wd ← getField d.wind
  let wind_speed := wd.speed
  let s1 : String × List String :=
    if temp > 30 then ("不太适合", ["气温较高"])
    else if temp > 35 then ("不适合", ["气温过高"])
    else if temp < 5 then ("不太适合", ["气温较低"])
    else if temp < -5 then ("不适合", ["气温过低"])
    else ("适合", [])
  let s2 :=
    if bad_weather_keywords.any (fun k => strContains (pyLower weather_desc) k)
    then ("不太适合", s1.2 ++ ["有降水"]) else s1
  let s3 :=
    if wind_speed > 10 then ("不太适合", s2.2 ++ ["风力较大"])
    else if wind_speed > 15 then ("不适合", s2.2 ++ ["风力过大"]) else s2
  let s4 :=
    match d.air_quality with
    | some aq =>
      let aqi := aq.aqi.getD 0
      if aqi > 150 then ("不太适合", s3.2 ++ ["空气质量较差"])
      else if aqi > 200 then ("不适合", s3.2 ++ ["空气质量差"]) else s3
    | none => s3
  let response :=
    "根据" ++ city ++ "的当前天气情况：\n" ++
    "- 温度: " ++ toString temp ++ "°C\n" ++
    "- 天气: " ++ pyCapitalize weather_desc ++ "\n" ++
    "- 湿度: " ++ toString humidity ++ "%\n" ++
    "- 风速: " ++ toString wind_speed ++ " m/s\n\n" ++
    (if s4.1 = "适合"
     then "✅ 当前天气状况良好，**适合外出活动**。建议根据天气情况适当着装。"
     else "⚠️ 当前天气" ++ String.intercalate ", " s4.2 ++ "，**" ++ s4.1 ++
       "外出**。建议根据实际情况调整计划。")
  return response

/-- `get_weather_suitability` (Weather_zh.py lines 244-315): the enclosing
try/except returns Python None (`none`) when the body raises; a
formatted_text payload short-circuits to its text. -/
def get_weather_suitability (w : WeatherData) : Option String :=
  match w with
  | .formatted t => some t
  | .structured d => (suitability_body d).toOption

/-- External calls a turn can make, recorded so that theorems can speak
about control flow: the classification completion call, the weather-tool
invocation carrying the city handed to `call_weather_tool`, the suitability
composition, and the direct-answer completion call. -/
inductive ExtCall
  | classify
  | toolInvoke (city : String)
  | suitabilityCheck
  | directAnswer
deriving Repr, DecidableEq

/-- Environment of one `process_query` turn: the two completion oracles and
the weather-tool availability and transport oracle. -/
structure Env where
  modelDecision : Except Unit String
  directReply : Except Unit String
  toolsAvailable : Bool
  transport : ToolTransport

/-- `get_local_model_response` (Weather_zh.py lines 317-349): the stripped
reply text, or the fixed apology when the completion call raises. -/
def get_local_model_response (directReply : Except Unit String) : String :=
  match directReply with
  | .ok s => pyStrip s
  | .error _ => "抱歉，我暂时无法处理这个请求，请稍后再试。"

/-- The fallback sentence of `process_query` (Weather_zh.py line 364)
naming the requested city. -/
def fallback_text (city : String) : String :=
  "抱歉，我暂时无法获取" ++ city ++ "的天气信息。你可以稍后再试，或者查看天气预报应用获取最新信息。"

/-- The generic apology of the outer exception handler of `process_query`
(Weather_zh.py line 405). -/
def generic_error_text : String := "抱歉，处理你的请求时出现了错误，请稍后再试。"

/-- The raw-report formatting of `process_query` (Weather_zh.py lines
379-392), which subscripts the payload directly and therefore raises on a
missing field — inside the outer try/except, unlike the composer. -/
def format_raw_weather (d : StructData) (city : String) : Except Unit String := do
  let m ← getField d.main
  let temp := m.temp
  let w ← headField d.weather
  let weather_desc := w.description
  let humidity := m.humidity
  let wd ← getField d.wind
  let wind_speed := wd.speed
  let city_name := d.name.getD city
  return "🌍 " ++ city_name ++ "当前天气：\n" ++
    "🌡 温度: " ++ toString temp ++ "°C\n" ++
    "🌤 天气: " ++ weather_desc ++ "\n" ++
    "💧 湿度: " ++ toString humidity ++ "%\n" ++
    "🌬 风速: " ++ toString wind_speed ++ " m/s"

/-- Result of one turn: the reply, the memory after the turn, and the trace
of external calls (tracked on normal completion; on the exception path only
the reply and memory are meaningful). -/
structure TurnResult where
  reply : String
  memory : List Message
  calls : List ExtCall
deriving Repr, DecidableEq

/-- Every successful branch of `process_query` ends in
`self.dialogue_memory.add_message("assistant", response); return response`;
this helper is that common final step. -/
def finish_turn (ts : String) (mem1 : List Message) (reply : String)
    (calls : List ExtCall) : String × List Message × List ExtCall :=
  (reply, add_message mem1 ⟨"assistant", reply, ts⟩, calls)

/-- The direct-answer path of `process_query` (Weather_zh.py lines
397-401). -/
def direct_path (env : Env) (ts : String) (mem1 : List Message)
    (calls0 : List ExtCall) : Except Unit (String × List Message × List ExtCall) :=
  let reply := get_local_model_response env.directReply
  .ok (finish_turn ts mem1 reply (calls0 ++ [.directAnswer]))

/-- The outing cue test of `process_query` (Weather_zh.py line 369):
`"适合外出" in query.lower() or "外出" in query.lower()`. -/
def wants_suitability (query : String) : Bool :=
  strContains (pyLower query) "适合外出" || strContains (pyLower query) "外出"

/-- The reply composition of the tool path once a weather payload is at hand
(Weather_zh.py lines 368-392): the suitability composer when the outing cue
is present and its result is truthy (Python: neither None nor empty), else
the formatted-text pass-through, else the raw report, whose direct
subscripting can raise into the outer handler. -/
def compose_tool_reply (wd : WeatherData) (query city : String) :
    Except Unit String :=
  let suitRes : Option String :=
    if wants_suitability query then
      match get_weather_suitability wd with
      | some s => if s == "" then none else some s
      | none => none
    else none
  match suitRes with
  | some s => .ok s
  | none =>
    match wd with
    | .formatted t => .ok t
    | .structured d => format_raw_weather d city

/-- The tool path of `process_query` (Weather_zh.py lines 358-395): invoke
the tool; on a None result return the fixed fallback naming the city; else
compose the reply (the suitability composer having been consulted exactly
when the outing cue is present). -/
def tool_path (env : Env) (ts : String) (mem1 : List Message)
    (calls0 : List ExtCall) (query city : String) :
    Except Unit (String × List Message × List ExtCall) :=
  let calls1 := calls0 ++ [ExtCall.toolInvoke city]
  match call_weather_tool env.toolsAvailable env.transport with
  | none => .ok (finish_turn ts mem1 (fallback_text city) calls1)
  | some wd =>
    match compose_tool_reply wd query city with
    | .ok reply => .ok (finish_turn ts mem1 reply
        (if wants_suitability query then calls1 ++ [ExtCall.suitabilityCheck] else calls1))
    | .error e => .error e

/-- The body of `process_query` (Weather_zh.py lines 352-401) inside the
outer try/except, after the user turn has been recorded into `mem1`: route
via `should_call_tool`, then `if should_call and city:` (Python truthiness:
None and the empty string are falsy) selects the tool path, else the
direct-answer path. -/
def process_query_body (env : Env) (ts : String) (mem1 : List Message)
    (query : String) : Except Unit (String × List Message × List ExtCall) :=
  let rc := should_call_tool env.modelDecision query
  let calls0 : List ExtCall := if is_weather_query query then [] else [.classify]
  match rc.2 with
  | some city =>
    if rc.1 && !(city == "") then tool_path env ts mem1 calls0 query city
    else direct_path env ts mem1 calls0
  | none => direct_path env ts mem1 calls0

/-- `process_query` (Weather_zh.py lines 351-407): record the user turn, run
the body, and catch any escaped exception, converting it to the fixed
generic apology, recording it as the assistant turn and returning it. -/
def process_query (env : Env) (ts : String) (mem0 : List Message)
    (query : String) : TurnResult :=
  let mem1 := add_message mem0 ⟨"user", query, ts⟩
  match process_query_body env ts mem1 query with
  | .ok (r, m, cs) => ⟨r, m, cs⟩
  | .error _ => ⟨generic_error_text,
      add_message mem1 ⟨"assistant", generic_error_text, ts⟩, []⟩

theorem add_message_eq_drop (history : List Message) (msg : Message) :
    add_message history msg =
      (history ++ [msg]).drop ((history ++ [msg]).length - max_history_length) := by
  show (if max_history_length < (history ++ [msg]).length then
      (history ++ [msg]).drop ((history ++ [msg]).length - max_history_length)
    else history ++ [msg]) = _
  by_cases h : max_history_length < (history ++ [msg]).length
  · rw [if_pos h]
  · rw [if_neg h]
    have h0 : (history ++ [msg]).length - max_history_length = 0 := by omega
    rw [h0, List.drop_zero]

theorem add_message_length_le (history : List Message) (msg : Message)
    (h : history.length ≤ max_history_length) :
    (add_message history msg).length ≤ max_history_length := by
  rw [add_message_eq_drop]
  simp only [List.length_drop]
  omega

theorem foldl_add_message_eq_drop (ms : List Message) :
    ∀ h : List Message, h.length ≤ max_history_length →
      ms.foldl add_message h = (h ++ ms).drop ((h ++ ms).length - max_history_length) := by
  induction ms with
  | nil =>
      intro h hle
      have h0 : h.length - max_history_length = 0 := by omega
      simp only [List.foldl_nil, List.append_nil, h0, List.drop_zero]
  | cons m ms ih =>
      intro h hle
      rw [List.foldl_cons, ih (add_message h m) (add_message_length_le h m hle),
        add_message_eq_drop]
      by_cases hcase : h.length < max_history_length
      · have h0 : (h ++ [m]).length - max_history_length = 0 := by
          simp only [List.length_append, List.length_cons, List.length_nil]; omega

        rw [h0, List.drop_zero]
        simp only [List.append_assoc, List.singleton_append]
      · have h1 : (h ++ [m]).length - max_history_length = 1 := by
          simp only [List.length_append, List.length_cons, List.length_nil]; omega

        rw [h1]
        have hdrop : ((h ++ [m]).drop 1) ++ ms = ((h ++ [m]) ++ ms).drop 1 :=
          (List.drop_append_of_le_length (by
            simp only [List.length_append, List.length_cons, List.length_nil]
            omega)).symm
        rw [hdrop, List.drop_drop]
        have heq : (h ++ [m]) ++ ms = h ++ m :: ms := by
          simp only [List.append_assoc, List.singleton_append]
        rw [heq]
        congr 1
        simp only [List.length_drop, List.length_append, List.length_cons]
        omega

/-- C1: starting from the empty dialogue memory, any sequence of
`add_message` calls leaves exactly the most recent `max_history_length = 5`
recorded turns, oldest evicted first, in insertion order; in particular the
stored length never exceeds 5. -/
theorem dialogue_memory_fifo (ms : List Message) :
    ms.foldl add_message [] = ms.drop (ms.length - max_history_length) ∧
    (ms.foldl add_message []).length ≤ max_history_length := by
  have h := foldl_add_message_eq_drop ms [] (by simp [max_history_length])
  simp only [List.nil_append] at h
  refine ⟨h, ?_⟩
  rw [h]
  simp only [List.length_drop]
  omega

/-- C4 counterexample: on a memory holding exactly the two turns
[user, assistant], `get_recent_context` returns the empty string — it does
not render the two lines of that pair as the claim asserts, because the code
pairs a user turn at index i with the assistant turn at index i-1 (the one
stored before it), not the one that follows it. -/
theorem get_recent_context_pair_counterexample :
    get_recent_context [⟨"user", "你好", "t1"⟩, ⟨"assistant", "你好！", "t2"⟩] = "" ∧
    ("" : String) ≠ "用户: 你好" ++ "\n\n" ++ "助手: 你好！" := by
  exact ⟨rfl, by decide⟩

/-- C4 amended: `get_recent_context` pairs each user turn with the assistant
turn immediately preceding it in storage order, rendering at most 3 such
pairs in chronological order; it returns the empty string on empty memory,
the single user line on a memory holding one user turn, and the empty string
on a memory holding exactly the two turns [user, assistant]. -/
theorem get_recent_context_spec :
    get_recent_context [] = "" ∧
    (∀ c t, get_recent_context [⟨"user", c, t⟩] = "用户: " ++ c) ∧
    (∀ c d t t', get_recent_context [⟨"user", c, t⟩, ⟨"assistant", d, t'⟩] = "") ∧
    (∀ c1 d1 c2 d2 c3 t1 t2 t3 t4 t5,
      get_recent_context [⟨"user", c1, t1⟩, ⟨"assistant", d1, t2⟩, ⟨"user", c2, t3⟩,
        ⟨"assistant", d2, t4⟩, ⟨"user", c3, t5⟩] =
        String.intercalate "\n\n"
          ["用户: " ++ c1, "助手: " ++ d1, "用户: " ++ c2, "助手: " ++ d2, "用户: " ++ c3]) :=
  ⟨rfl, fun _ _ => rfl, fun _ _ _ _ => rfl, fun _ _ _ _ _ _ _ _ _ _ => rfl⟩

theorem listContains_nil_pat (l : List Char) : listContains [] l = true := by
  induction l with
  | nil => rfl
  | cons c rest ih => simp [listContains, List.isPrefixOf]

theorem listContains_append (pre pat post : List Char) :
    listContains pat (pre ++ pat ++ post) = true := by
  induction pre with
  | nil =>
      cases pat with
      | nil => exact listContains_nil_pat _
      | cons c cs =>
          simp only [List.nil_append, listContains, Bool.or_eq_true]
          exact Or.inl (List.isPrefixOf_iff_prefix.mpr (List.prefix_append _ _))
  | cons c pre ih =>
      simp only [List.cons_append, listContains, Bool.or_eq_true]
      exact Or.inr ih

/-- A string built around `pat` contains `pat`. -/
theorem strContains_middle (pre pat post : String) :
    strContains (pre ++ pat ++ post) pat = true := by
  show listContains pat.data ((pre ++ pat ++ post).data) = true
  have h : (pre ++ pat ++ post).data = pre.data ++ pat.data ++ post.data := by
    simp [String.data_append]
  rw [h]
  exact listContains_append _ _ _

theorem str_data_eq_nil_iff (s : String) : s.data = [] ↔ s = "" := by
  constructor
  · intro h
    apply String.ext
    simpa using h
  · intro h
    rw [h]

theorem concatAll_cons_ne_empty (s : String) (rest : List String) (h : s ≠ "") :
    concatAll (s :: rest) ≠ "" := by
  intro hc
  apply h
  rw [← str_data_eq_nil_iff] at hc ⊢
  simp only [concatAll, String.data_append, List.append_eq_nil] at hc
  exact hc.1

theorem pyCapitalize_ne_empty (s : String) (h : s ≠ "") : pyCapitalize s ≠ "" := by
  have hdat : s.data ≠ [] := fun hh => h ((str_data_eq_nil_iff s).mp hh)
  rcases hd : s.data with _ | ⟨c, rest⟩
  · exact absurd hd hdat
  · have he : pyCapitalize s = String.mk (c.toUpper :: rest.map Char.toLower) := by
      unfold pyCapitalize
      rw [hd]
    rw [he]
    intro hcon
    have := (str_data_eq_nil_iff (String.mk (c.toUpper :: rest.map Char.toLower))).mpr hcon
    exact List.cons_ne_nil _ _ this

theorem city_map_values_ne_empty : ∀ p ∈ CITY_MAP, p.2 ≠ "" := by decide

/-- C5 counterexample: the `translate_city` of Ernie_Client.py (a plain
`CITY_MAP.get(city, city)`) has no prefix/substring step, so it leaves
"北京市" unchanged instead of mapping it to "Beijing" as the claim states. -/
theorem translate_city_suffix_counterexample :
    ernie_translate_city "北京市" = "北京市" ∧ ("北京市" : String) ≠ "Beijing" := by
  exact ⟨rfl, by decide⟩

/-- C5 amended: the `translate_city` shared by Weather_zh.py, Weather.py and
Agent.py maps 北京 to Beijing by exact lookup and 北京市 to Beijing by the
prefix/substring step, and on any non-empty input returns a non-empty string
(a capitalized transliteration when pypinyin imports, the input unchanged
otherwise) without raising; Ernie_Client.py's reduced `translate_city` also
maps 北京 to Beijing and never returns empty, but returns unknown names such
as 北京市 unchanged, lacking the prefix/substring step. -/
theorem lookupMap_mem_of_some {m : List (String × String)} {k v : String}
    (h : lookupMap m k = some v) : ∃ p ∈ m, p.2 = v := by
  unfold lookupMap at h
  rcases hf : m.find? (fun p => p.1 == k) with _ | p
  · rw [hf] at h
    cases h
  · rw [hf] at h
    simp only [Option.map_some', Option.some.injEq] at h
    exact ⟨p, List.mem_of_find?_eq_some hf, h⟩

theorem translate_city_gazetteer :
    (∀ lp, translate_city CITY_MAP lp "北京" = "Beijing") ∧
    (∀ lp, translate_city CITY_MAP lp "北京市" = "Beijing") ∧
    (∀ (city : String) (f : Char → String), city ≠ "" → (∀ c, f c ≠ "") →
      translate_city CITY_MAP (some f) city ≠ "") ∧
    (∀ city : String, city ≠ "" → translate_city CITY_MAP none city ≠ "") ∧
    (∀ city : String, ernie_translate_city "北京" = "Beijing" ∧
      (city ≠ "" → ernie_translate_city city ≠ "")) := by
  refine ⟨fun lp => rfl, fun lp => rfl, ?_, ?_, ?_⟩
  · intro city f hcity hf
    unfold translate_city
    split
    next en hlk =>
      obtain ⟨p, hp, hpv⟩ := lookupMap_mem_of_some hlk
      exact hpv ▸ city_map_values_ne_empty p hp
    next =>
      split
      next p hfd =>
        exact city_map_values_ne_empty p (List.mem_of_find?_eq_some hfd)
      next =>
        have hdat : city.data ≠ [] := fun hh => hcity ((str_data_eq_nil_iff city).mp hh)
        rcases hd : city.data with _ | ⟨c, rest⟩
        · exact absurd hd hdat
        · show pyCapitalize (concatAll (List.map f (c :: rest))) ≠ ""
          exact pyCapitalize_ne_empty _ (concatAll_cons_ne_empty _ _ (hf c))
  · intro city hcity
    unfold translate_city
    split
    next en hlk =>
      obtain ⟨p, hp, hpv⟩ := lookupMap_mem_of_some hlk
      exact hpv ▸ city_map_values_ne_empty p hp
    next =>
      split
      next p hfd =>
        exact city_map_values_ne_empty p (List.mem_of_find?_eq_some hfd)
      next =>
        exact hcity
  · intro city
    refine ⟨rfl, fun hcity => ?_⟩
    unfold ernie_translate_city
    rcases hlk : lookupMap CITY_MAP city with _ | en
    · exact hcity
    · obtain ⟨p, hp, hpv⟩ := lookupMap_mem_of_some hlk
      simp only [Option.getD_some]
      exact hpv ▸ city_map_values_ne_empty p hp

/-- C5 witness: the amended statement applied at the concrete unknown city
武汉 with a transliteration returning "wu" for every character. -/
theorem translate_city_gazetteer_witness :
    translate_city CITY_MAP (some (fun _ => "wu")) "武汉" ≠ "" ∧
    translate_city CITY_MAP none "武汉" ≠ "" ∧
    ernie_translate_city "武汉" ≠ "" :=
  ⟨translate_city_gazetteer.2.2.1 "武汉" (fun _ => "wu") (by decide)
      (fun _ => (by decide : ("wu" : String) ≠ "")),
   translate_city_gazetteer.2.2.2.1 "武汉" (by decide),
   (translate_city_gazetteer.2.2.2.2 "武汉").2 (by decide)⟩

/-- C2 counterexample: 天气怎么样 contains a weather keyword and the regex
cascade extracts no location, yet `should_call_tool` returns the final
negative decision (false, none) straight from the keyword path; the model
fallback is not reached, and even an oracle reply that names a city cannot
change the result. -/
theorem keyword_no_location_counterexample :
    is_weather_query "天气怎么样" = true ∧
    extract_city "天气怎么样" = none ∧
    reaches_model_fallback "天气怎么样" = false ∧
    should_call_tool (.ok "是，城市：北京") "天气怎么样" = (false, none) ∧
    should_call_tool (.error ()) "天气怎么样" = (false, none) := by
  refine ⟨rfl, by decide, rfl, by decide, by decide⟩

/-- C2 amended: for every utterance that contains a weather keyword but from
which the regex location extraction finds no location, `should_call_tool`
returns (false, none) directly from the keyword path and the model-assisted
classification fallback is not reached, whatever the completion oracle
would reply. -/
theorem keyword_no_location_negative (query : String) (m : Except Unit String)
    (hk : is_weather_query query = true) (he : extract_city query = none) :
    should_call_tool m query = (false, none) ∧
    reaches_model_fallback query = false := by
  unfold should_call_tool reaches_model_fallback
  rw [hk, he]
  simp

/-- C2 witness: the amended statement at 天气怎么样 with an oracle reply that
would have produced a tool call had the fallback been consulted. -/
theorem keyword_no_location_negative_witness :
    should_call_tool (.ok "是，城市：北京") "天气怎么样" = (false, none) ∧
    reaches_model_fallback "天气怎么样" = false :=
  keyword_no_location_negative "天气怎么样" (.ok "是，城市：北京") (by decide) (by decide)

theorem altAt_ne_none_of_find (alts : List String) (sfx : List Char) (cs : List Char)
    (h : (alts.find? (fun a => a.data.isPrefixOf cs)).isSome = true) :
    altAt alts sfx cs ≠ none := by
  unfold altAt
  split
  next a hf =>
    split
    next d tl hdrop =>
      split
      · exact Option.some_ne_none _
      · exact Option.some_ne_none _
    next hdrop => exact Option.some_ne_none _
  next hf =>
    rw [hf] at h
    cases h

theorem altSearch_ne_none (alts : List String) (sfx : List Char) (a : String)
    (ha : a ∈ alts) (hne : a.data ≠ []) :
    ∀ cs : List Char, listContains a.data cs = true → altSearch alts sfx cs ≠ none := by
  intro cs
  induction cs with
  | nil =>
      intro h
      simp only [listContains, List.isEmpty_iff] at h
      exact absurd h hne
  | cons c rest ih =>
      intro h
      unfold altSearch
      split
      next cap hAt => exact Option.some_ne_none _
      next hAt =>
        apply ih
        have hfind : alts.find? (fun x => x.data.isPrefixOf (c :: rest)) = none := by
          by_contra hcon
          rcases Option.ne_none_iff_exists'.mp hcon with ⟨p, hp⟩
          exact altAt_ne_none_of_find alts sfx (c :: rest) (by rw [hp]; rfl) hAt
        have hnp : ¬ (a.data.isPrefixOf (c :: rest) = true) :=
          fun hp => (List.find?_eq_none.mp hfind a ha) hp
        simp only [listContains, Bool.or_eq_true] at h
        rcases h with h | h
        · exact absurd h hnp
        · exact h

/-- C6 counterexample: 我的天气预报说上海下雨 contains the weather keyword 天气
and the gazetteer city 上海, yet `should_call_tool` returns (true, "我"),
because the tier-1 pattern `(.+?)(?:现在|今天|的)天气` matches first and
captures 我 before 的天气 — the returned city is not the gazetteer city. -/
theorem gazetteer_city_counterexample :
    is_weather_query "我的天气预报说上海下雨" = true ∧
    "上海" ∈ cityList ∧
    strContains (cleanQuery "我的天气预报说上海下雨") "上海" = true ∧
    should_call_tool (.error ()) "我的天气预报说上海下雨" = (true, some "我") ∧
    ("我" : String) ≠ "上海" := by
  refine ⟨by decide, by decide, by decide, by decide, by decide⟩

/-- C6 amended: for every utterance containing a weather keyword and (after
filler-word stripping) a gazetteer city name, `should_call_tool` returns
(true, c) for some non-null extracted location c — which may be the tier-1
capture rather than the gazetteer city itself. -/
theorem keyword_and_city_calls_tool (query : String) (m : Except Unit String) (a : String)
    (hk : is_weather_query query = true) (ha : a ∈ cityList) (hne : a ≠ "")
    (hocc : strContains (cleanQuery query) a = true) :
    (should_call_tool m query).1 = true ∧ (should_call_tool m query).2 ≠ none := by
  have hcity : extract_city query ≠ none := by
    unfold extract_city
    rcases ht1 : tier1Search (cleanQuery query).data with _ | cap
    · have h2 := altSearch_ne_none cityList citySuffixClass a ha
        (fun hh => hne ((str_data_eq_nil_iff a).mp hh)) (cleanQuery query).data hocc
      rcases ht2 : altSearch cityList citySuffixClass (cleanQuery query).data with _ | cap2
      · exact absurd ht2 h2
      · simp [ht1, ht2]
    · simp [ht1]
  unfold should_call_tool
  rw [hk]
  rcases he : extract_city query with _ | c
  · exact absurd he hcity
  · simp [he]

/-- C6 witness: the amended statement at 今天上海天气怎么样, where tier 1 does
not match and the extracted location is the gazetteer city 上海 itself. -/
theorem keyword_and_city_calls_tool_witness :
    (should_call_tool (.error ()) "今天上海天气怎么样").1 = true ∧
    (should_call_tool (.error ()) "今天上海天气怎么样").2 ≠ none :=
  keyword_and_city_calls_tool "今天上海天气怎么样" (.error ()) "上海"
    (by decide) (by decide) (by decide) (by decide)

/-- C8: when an utterance reaches the model-assisted classification fallback
(its keyword screen failed) and the completion call raises any failure, the
Intent Router fails closed to (false, none). -/
theorem classification_failure_fails_closed (query : String)
    (hk : is_weather_query query = false) :
    should_call_tool (.error ()) query = (false, none) ∧
    reaches_model_fallback query = true := by
  unfold should_call_tool reaches_model_fallback
  rw [hk]
  simp

/-- C8 witness: the fail-closed behavior at the concrete non-weather
utterance 你好. -/
theorem classification_failure_fails_closed_witness :
    should_call_tool (.error ()) "你好" = (false, none) ∧
    reaches_model_fallback "你好" = true :=
  classification_failure_fails_closed "你好" (by decide)

/-- C3 (code bug): the cascade tests `temp > 30` before `elif temp > 35` and
`wind_speed > 10` before `elif wind_speed > 15`, so the two extreme branches
are unreachable. At 36 °C the verdict is 不太适合 (marginal) with reason
气温较高, and at wind 16 m/s it is 不太适合 with reason 风力较大 — never the
claimed 不适合 with 气温过高 / 风力过大. -/
theorem suitability_extremes_shadowed :
    get_weather_suitability (.structured ⟨some "Beijing", some ⟨36, 40⟩,
      [⟨"clear sky"⟩], some ⟨5⟩, none⟩) =
      some "根据Beijing的当前天气情况：\n- 温度: 36°C\n- 天气: Clear sky\n- 湿度: 40%\n- 风速: 5 m/s\n\n⚠️ 当前天气气温较高，**不太适合外出**。建议根据实际情况调整计划。" ∧
    get_weather_suitability (.structured ⟨some "Beijing", some ⟨20, 40⟩,
      [⟨"clear sky"⟩], some ⟨16⟩, none⟩) =
      some "根据Beijing的当前天气情况：\n- 温度: 20°C\n- 天气: Clear sky\n- 湿度: 40%\n- 风速: 16 m/s\n\n⚠️ 当前天气风力较大，**不太适合外出**。建议根据实际情况调整计划。" := by
  exact ⟨rfl, rfl⟩

theorem beq_empty_false_of_ne {c : String} (h : c ≠ "") : (c == "") = false :=
  beq_eq_false_iff_ne.mpr h

/-- C7: whenever the Tool Invoker produces an Error result (None — empty
transport result, JSON error object, unavailable tool, or any
transport/parse exception), the reply of the turn is the fixed apologetic
fallback sentence containing the requested city name, that reply is
recorded as the assistant turn on top of the recorded user turn, and the
fallback is terminal: neither the direct-answer completion call nor the
composer runs in that turn. -/
theorem tool_error_fallback (env : Env) (ts : String) (mem0 : List Message)
    (query city : String)
    (hroute : should_call_tool env.modelDecision query = (true, some city))
    (hcity : city ≠ "")
    (herr : call_weather_tool env.toolsAvailable env.transport = none) :
    (process_query env ts mem0 query).reply = fallback_text city ∧
    strContains (fallback_text city) city = true ∧
    (process_query env ts mem0 query).memory =
      add_message (add_message mem0 ⟨"user", query, ts⟩)
        ⟨"assistant", fallback_text city, ts⟩ ∧
    ExtCall.directAnswer ∉ (process_query env ts mem0 query).calls ∧
    ExtCall.suitabilityCheck ∉ (process_query env ts mem0 query).calls := by
  have hpq : process_query env ts mem0 query =
      ⟨fallback_text city,
        add_message (add_message mem0 ⟨"user", query, ts⟩)
          ⟨"assistant", fallback_text city, ts⟩,
        (if is_weather_query query then [] else [ExtCall.classify]) ++
          [ExtCall.toolInvoke city]⟩ := by
    unfold process_query process_query_body
    rw [hroute]
    simp only [beq_empty_false_of_ne hcity, Bool.not_false, Bool.and_true]
    unfold tool_path
    rw [herr]
    rfl
  rw [hpq]
  refine ⟨rfl, ?_, rfl, ?_, ?_⟩
  · exact strContains_middle "抱歉，我暂时无法获取" city
      "的天气信息。你可以稍后再试，或者查看天气预报应用获取最新信息。"
  · by_cases hw : is_weather_query query <;> simp [hw]
  · by_cases hw : is_weather_query query <;> simp [hw]

/-- C7 witness: a concrete turn routed to 北京 whose transport returns an
empty result. -/
theorem tool_error_fallback_witness :
    (process_query ⟨.error (), .error (), true, .empty⟩ "t0" [] "北京今天天气如何").reply
      = fallback_text "北京" ∧
    strContains (fallback_text "北京") "北京" = true ∧
    (process_query ⟨.error (), .error (), true, .empty⟩ "t0" [] "北京今天天气如何").memory
      = add_message (add_message [] ⟨"user", "北京今天天气如何", "t0"⟩)
          ⟨"assistant", fallback_text "北京", "t0"⟩ ∧
    ExtCall.directAnswer
      ∉ (process_query ⟨.error (), .error (), true, .empty⟩ "t0" [] "北京今天天气如何").calls ∧
    ExtCall.suitabilityCheck
      ∉ (process_query ⟨.error (), .error (), true, .empty⟩ "t0" [] "北京今天天气如何").calls :=
  tool_error_fallback ⟨.error (), .error (), true, .empty⟩ "t0" [] "北京今天天气如何" "北京"
    (by decide) (by decide) rfl

theorem direct_path_shape (env : Env) (ts : String) (mem1 : List Message)
    (calls0 : List ExtCall) (out : String × List Message × List ExtCall)
    (h : direct_path env ts mem1 calls0 = .ok out) :
    out.2.1 = add_message mem1 ⟨"assistant", out.1, ts⟩ ∧
    out.2.2 = calls0 ++ [ExtCall.directAnswer] := by
  unfold direct_path finish_turn at h
  injection h with h1
  rw [← h1]
  exact ⟨rfl, rfl⟩

theorem tool_path_shape (env : Env) (ts : String) (mem1 : List Message)
    (calls0 : List ExtCall) (query city : String)
    (out : String × List Message × List ExtCall)
    (h : tool_path env ts mem1 calls0 query city = .ok out) :
    out.2.1 = add_message mem1 ⟨"assistant", out.1, ts⟩ ∧
    (out.2.2 = calls0 ++ [ExtCall.toolInvoke city] ∨
     out.2.2 = (calls0 ++ [ExtCall.toolInvoke city]) ++ [ExtCall.suitabilityCheck]) := by
  unfold tool_path finish_turn at h
  split at h
  · injection h with h1
    rw [← h1]
    exact ⟨rfl, Or.inl rfl⟩
  · split at h
    · injection h with h1
      rw [← h1]
      refine ⟨rfl, ?_⟩
      split
      · exact Or.inr rfl
      · exact Or.inl rfl
    · cases h

theorem body_shape (env : Env) (ts : String) (mem1 : List Message) (query : String)
    (out : String × List Message × List ExtCall)
    (h : process_query_body env ts mem1 query = .ok out) :
    out.2.1 = add_message mem1 ⟨"assistant", out.1, ts⟩ := by
  unfold process_query_body at h
  dsimp only at h
  split at h
  · split at h
    · exact (tool_path_shape _ _ _ _ _ _ _ h).1
    · exact (direct_path_shape _ _ _ _ _ h).1
  · exact (direct_path_shape _ _ _ _ _ h).1

/-- C9: `process_query` never propagates an exception — it is a total
function of its oracles; whenever the body raises, the reply is the fixed
generic apology recorded as the assistant turn; and in every case (success
or failure) the returned reply is exactly the assistant turn recorded on top
of the user turn recorded at entry. -/
theorem orchestrator_absorbs_exceptions (env : Env) (ts : String)
    (mem0 : List Message) (query : String) :
    ((∃ e, process_query_body env ts (add_message mem0 ⟨"user", query, ts⟩) query
        = .error e) →
      (process_query env ts mem0 query).reply = generic_error_text) ∧
    (process_query env ts mem0 query).memory =
      add_message (add_message mem0 ⟨"user", query, ts⟩)
        ⟨"assistant", (process_query env ts mem0 query).reply, ts⟩ := by
  constructor
  · rintro ⟨e, he⟩
    unfold process_query
    dsimp only
    rw [he]
  · unfold process_query
    dsimp only
    rcases hb : process_query_body env ts (add_message mem0 ⟨"user", query, ts⟩) query
      with e | ⟨r, m, cs⟩
    · rfl
    · simpa using body_shape env ts _ query (r, m, cs) hb

/-- C9 witness: a concrete turn whose tool reply parses to a dict missing
the `main` field, so the raw-report formatting raises KeyError and the
orchestrator converts it to the generic apology. -/
theorem orchestrator_absorbs_exceptions_witness :
    (process_query ⟨.error (), .error (), true, .jsonData ⟨none, none, [], none, none⟩⟩
        "t0" [] "北京今天天气如何").reply = generic_error_text ∧
    (process_query ⟨.error (), .error (), true, .jsonData ⟨none, none, [], none, none⟩⟩
        "t0" [] "北京今天天气如何").memory =
      add_message (add_message [] ⟨"user", "北京今天天气如何", "t0"⟩)
        ⟨"assistant", (process_query ⟨.error (), .error (), true,
          .jsonData ⟨none, none, [], none, none⟩⟩ "t0" [] "北京今天天气如何").reply, "t0"⟩ :=
  have h := orchestrator_absorbs_exceptions
    ⟨.error (), .error (), true, .jsonData ⟨none, none, [], none, none⟩⟩ "t0" []
    "北京今天天气如何"
  ⟨h.1 ⟨(), rfl⟩, h.2⟩

/-- C10: under every oracle, the boolean returned by `should_call_tool` is
true iff the city component is non-null; and in `process_query` a recorded
tool invocation always carries a non-empty city that the routing decision
returned as (true, some city) — the Tool Invoker is never handed a null
city. -/
theorem router_decision_invariant (q : String) :
    (∀ m : Except Unit String,
      ((should_call_tool m q).1 = true ↔ (should_call_tool m q).2 ≠ none)) ∧
    (∀ (env : Env) (ts : String) (mem0 : List Message) (c : String),
      ExtCall.toolInvoke c ∈ (process_query env ts mem0 q).calls →
      should_call_tool env.modelDecision q = (true, some c) ∧ c ≠ "") := by
  constructor
  · intro m
    unfold should_call_tool
    by_cases hk : is_weather_query q = true
    · simp only [hk, if_true]
      cases extract_city q <;> simp
    · simp only [Bool.not_eq_true] at hk
      simp only [hk, Bool.false_eq_true, if_false]
      cases m with
      | error e => simp
      | ok raw =>
        dsimp only
        split
        · simp
        · split
          · simp
          · cases extract_city q <;> simp
  · intro env ts mem0 c hmem
    unfold process_query at hmem
    dsimp only at hmem
    rcases hb : process_query_body env ts (add_message mem0 ⟨"user", q, ts⟩) q
      with e | ⟨r, mm, cs⟩ <;> rw [hb] at hmem
    · simp at hmem
    · dsimp only at hmem
      unfold process_query_body at hb
      dsimp only at hb
      split at hb
      next city hcity2 =>
        split at hb
        next hcond =>
          have hsh := (tool_path_shape _ _ _ _ _ _ _ hb).2
          simp only at hsh
          have hc : c = city := by
            by_cases hw : is_weather_query q = true <;>
              rcases hsh with hsh | hsh <;> rw [hsh] at hmem <;>
                simp [hw] at hmem <;> exact hmem
          obtain ⟨hb1, hb2⟩ := Bool.and_eq_true_iff.mp hcond
          have hcne : city ≠ "" := by
            intro hcc
            rw [hcc] at hb2
            simp at hb2
          subst hc
          refine ⟨?_, hcne⟩
          have hpair : should_call_tool env.modelDecision q =
              ((should_call_tool env.modelDecision q).1,
                (should_call_tool env.modelDecision q).2) := rfl
          rw [hpair, hb1, hcity2]
        next hcond =>
          have hsh := (direct_path_shape _ _ _ _ _ hb).2
          simp only at hsh
          rw [hsh] at hmem
          by_cases hw : is_weather_query q = true <;> simp [hw] at hmem
      next hcity2 =>
        have hsh := (direct_path_shape _ _ _ _ _ hb).2
        simp only at hsh
        rw [hsh] at hmem
        by_cases hw : is_weather_query q = true <;> simp [hw] at hmem

/-- C10 witness: the orchestrator invariant applied at a concrete turn whose
trace contains the tool invocation for 北京. -/
theorem router_decision_invariant_witness :
    should_call_tool (Except.error ()) "北京今天天气如何" = (true, some "北京") ∧
    ("北京" : String) ≠ "" :=
  (router_decision_invariant "北京今天天气如何").2
    ⟨.error (), .error (), true, .empty⟩ "t0" [] "北京" (by decide)

end ErnieMCP
